import Mathlib

/-!
# Torsion test stand — verification of the measurement control core

Shallow embedding of the measurement control core of the torsion test
stand (`main.py` together with `src/hardware/daq_controller.py` and
`src/hardware/nanotec_motor_controller.py`): the angle unwrapper, the
voltage-to-angle scaling, the periodic measurement tick (`measure`),
`stop_measurement` and `deactivate_hardware`.

Floats are modelled as rationals.  Side effects on the hardware are made
observable as a trace of `HWEvent`s emitted by each operation; sensor
reads that can raise are modelled by a `ReadResult` oracle carried in the
tick input.  GUI-only effects (LEDs, text fields, the live graph) and the
wall-clock timestamp string are not modelled; the sample record keeps the
numeric payload (voltage, torque, angle) that the tick writes to the data
file.
-/

namespace TorsionStand

/-! ## Configuration constants (module-level constants of `main.py`) -/

/-- `DEMO_MODE` (main.py line 150). -/
abbrev DEMO_MODE : Bool := true

/-- `TORQUE_SENSOR_MAX_NM = 20.0` (main.py line 155). -/
abbrev TORQUE_SENSOR_MAX_NM : ℚ := 20

/-- `TORQUE_SENSOR_MAX_VOLTAGE = 10.0` (main.py line 156). -/
abbrev TORQUE_SENSOR_MAX_VOLTAGE : ℚ := 10

/-- `TORQUE_SCALE = TORQUE_SENSOR_MAX_NM / TORQUE_SENSOR_MAX_VOLTAGE` (main.py line 157). -/
abbrev TORQUE_SCALE : ℚ := TORQUE_SENSOR_MAX_NM / TORQUE_SENSOR_MAX_VOLTAGE

/-- `ANGLE_MEASUREMENT_SOURCE = "daq"` (main.py line 167). -/
abbrev ANGLE_MEASUREMENT_SOURCE : String := "daq"

/-- `ANGLE_ENCODER_MODE = "single_turn"` (main.py line 168). -/
abbrev ANGLE_ENCODER_MODE : String := "single_turn"

/-- `ANGLE_VOLTAGE_MIN = 0.0` (main.py line 171). -/
abbrev ANGLE_VOLTAGE_MIN : ℚ := 0

/-- `ANGLE_VOLTAGE_MAX = 10.0` (main.py line 172). -/
abbrev ANGLE_VOLTAGE_MAX : ℚ := 10

/-- `ANGLE_MIN_DEG = 0.0` (main.py line 173). -/
abbrev ANGLE_MIN_DEG : ℚ := 0

/-- `ANGLE_MAX_DEG = 360.0` (main.py line 174). -/
abbrev ANGLE_MAX_DEG : ℚ := 360

/-- `ANGLE_WRAP_THRESHOLD = 180.0` (main.py line 175). -/
abbrev ANGLE_WRAP_THRESHOLD : ℚ := 180

/-- Python's built-in `abs` on a rational. -/
def py_abs (q : ℚ) : ℚ := if q < 0 then -q else q

/-- Python's two-argument `min`. -/
def py_min (a b : ℚ) : ℚ := if a ≤ b then a else b

/-- Python's two-argument `max`. -/
def py_max (a b : ℚ) : ℚ := if b ≤ a then a else b

/-! ## AngleUnwrapper state (`self.prev_angle_deg`, `self.turn_counter`,
`self.angle_continuous_deg` in `MainWindow`) -/

/-- The unwrap state of `MainWindow`: `prev_angle_deg` (last raw angle),
`turn_counter` (signed number of full revolutions), and
`angle_continuous_deg` (the derived continuous angle). -/
structure UnwrapState where
  prev_angle_deg : ℚ
  turn_counter : ℤ
  angle_continuous_deg : ℚ
deriving DecidableEq, Repr

/-- `MainWindow.unwrap_angle` (main.py lines 1351–1394), with the module
constant `ANGLE_ENCODER_MODE` read through the `mode` argument.  In
`"multi_turn"` mode the raw angle is returned unchanged and the state is
untouched; otherwise the wrap detection updates `turn_counter`,
recomputes `angle_continuous_deg = angle_now + 360·turn_counter`, and
stores `angle_now` as the new `prev_angle_deg`. -/
def unwrap_angle (mode : String) (s : UnwrapState) (angle_now : ℚ) : ℚ × UnwrapState :=
  if mode = "multi_turn" then
    (angle_now, s)
  else
    let delta := angle_now - s.prev_angle_deg
    let turn_counter :
        ℤ :=
      if delta < -ANGLE_WRAP_THRESHOLD then s.turn_counter + 1
      else if delta > ANGLE_WRAP_THRESHOLD then s.turn_counter - 1
      else s.turn_counter
    let angle_continuous := angle_now + 360 * (turn_counter : ℚ)
    (angle_continuous,
     { prev_angle_deg := angle_now
       turn_counter := turn_counter
       angle_continuous_deg := angle_continuous })

/-- `MainWindow.reset_angle_unwrap` (main.py lines 1396–1431): the state
it leaves behind (`prev_angle_deg = 0`, `turn_counter = 0`,
`angle_continuous_deg = 0`). -/
def reset_angle_unwrap : UnwrapState :=
  { prev_angle_deg := 0, turn_counter := 0, angle_continuous_deg := 0 }

/-- Feeding a list of raw angles through `unwrap_angle` one by one,
returning the list of continuous angles and the final state. -/
def unwrap_run (mode : String) (s : UnwrapState) : List ℚ → List ℚ × UnwrapState
  | [] => ([], s)
  | a :: rest =>
    let step := unwrap_angle mode s a
    let tail := unwrap_run mode step.2 rest
    (step.1 :: tail.1, tail.2)

/-! ## DAQ voltage-to-angle scaling (`src/hardware/daq_controller.py`) -/

/-- The angle-scaling configuration of `DAQmxTask`
(`daq_controller.py` constructor arguments). -/
structure DAQmxTask where
  angle_voltage_min : ℚ
  angle_voltage_max : ℚ
  angle_min_deg : ℚ
  angle_max_deg : ℚ
deriving DecidableEq, Repr

/-- The `DAQmxTask` as constructed by `main.py` (`activate_hardware`):
0–10 V mapped onto 0–360°. -/
def default_daq_task : DAQmxTask :=
  { angle_voltage_min := ANGLE_VOLTAGE_MIN
    angle_voltage_max := ANGLE_VOLTAGE_MAX
    angle_min_deg := ANGLE_MIN_DEG
    angle_max_deg := ANGLE_MAX_DEG }

/-- `DAQmxTask.scale_voltage_to_angle` (daq_controller.py lines 170–191):
linear mapping of the measured voltage into degrees, then clamping with
`max(angle_min_deg, min(angle_max_deg, angle))`. -/
def scale_voltage_to_angle (t : DAQmxTask) (voltage : ℚ) : ℚ :=
  let voltage_range := t.angle_voltage_max - t.angle_voltage_min
  let angle_range := t.angle_max_deg - t.angle_min_deg
  if voltage_range = 0 then t.angle_min_deg
  else
    let angle := ((voltage - t.angle_voltage_min) / voltage_range) * angle_range + t.angle_min_deg
    py_max t.angle_min_deg (py_min t.angle_max_deg angle)

/-! ## Motor controller (`src/hardware/nanotec_motor_controller.py`) -/

/-- The observable state of a `MotorControllerBase` subclass:
`is_connected`, `is_moving`, `velocity` and `current_position`. -/
structure MotorControllerState where
  is_connected : Bool
  is_moving : Bool
  velocity : ℚ
  current_position : ℚ
deriving DecidableEq, Repr

/-- `NanotecMotorController.stop_movement` (nanotec_motor_controller.py
lines 186–219): refuses when not connected; otherwise sets
`is_moving := False` and `velocity := 0` *before* attempting the hardware
quick-stop, whose success is the `hw_ok` oracle (demo mode always
succeeds; on real hardware the object-dictionary write can fail, in which
case `False` is returned but the local flags are already cleared). -/
def stop_movement (m : MotorControllerState) (hw_ok : Bool) : MotorControllerState × Bool :=
  if m.is_connected = false then (m, false)
  else ({ m with is_moving := false, velocity := 0 }, hw_ok)

/-- `NanotecMotorController.disconnect` (nanotec_motor_controller.py
lines 89–104, demo-mode path as configured by `DEMO_MODE = True`): only
clears `is_connected`; it issues no stop command and leaves `is_moving`
and `velocity` untouched. -/
def motor_disconnect (m : MotorControllerState) : MotorControllerState :=
  { m with is_connected := false }

/-! ## Observable hardware / side-effect events of one operation -/

/-- Externally observable actions of the control core, in program order:
sensor reads, log entries, the data-file append, timer stop, motor
commands and the teardown actions of `deactivate_hardware`. -/
inductive HWEvent where
  | readAngle
  | readTorque
  | warnLog
  | errorLog
  | writeData
  | timerStop
  | motorStop
  | motorMove
  | daqClose
  | motorDisc
deriving DecidableEq, Repr

/-- Index of the first occurrence of `e` in a trace (length of the trace
when `e` is absent). -/
def firstIdx (e : HWEvent) : List HWEvent → ℕ
  | [] => 0
  | x :: xs => if x = e then 0 else firstIdx e xs + 1

/-- Number of occurrences of `e` in a trace. -/
def countEv (e : HWEvent) : List HWEvent → ℕ
  | [] => 0
  | x :: xs => (if x = e then 1 else 0) + countEv e xs

/-! ## The `MainWindow` system state and the tick input oracle -/

/-- One row written by `write_measurement_data`: the numeric payload
(raw torque voltage, computed torque, continuous angle).  The
elapsed-time string is wall-clock formatting and is not modelled. -/
structure Sample where
  voltage : ℚ
  torque : ℚ
  angle : ℚ
deriving DecidableEq, Repr

/-- The fields of `MainWindow` that the measurement control core reads
and writes.  `timer_present` models `hasattr(self, "measurement_timer")
and self.measurement_timer`; `timer_active` models whether the `QTimer`
is currently firing; `hardware_ready` models
`self.are_instruments_initialized`; `daq_present` models
`self.nidaqmx_task is not None` and `daq_task_created` its
`is_task_created` flag; `motor_present` models
`self.motor_controller is not None`.  `samples` is the data file
(append-only). -/
structure SysState where
  is_process_running : Bool
  timer_present : Bool
  timer_active : Bool
  hardware_ready : Bool
  daq_present : Bool
  daq_task_created : Bool
  daq_task : DAQmxTask
  motor_present : Bool
  motor : MotorControllerState
  unwrap : UnwrapState
  max_angle_value : ℚ
  max_torque_value : ℚ
  samples : List Sample
deriving DecidableEq, Repr

/-- Outcome of one hardware read: either a voltage or a raised
exception (timeout / disconnect / missing task). -/
inductive ReadResult where
  | ok (v : ℚ)
  | err
deriving DecidableEq, Repr

/-- The environment's contribution to one tick: what the two
`nidaqmx_task` reads return (or raise), and whether a quick-stop
command issued during this tick succeeds on the wire. -/
structure TickInput where
  angle_voltage : ReadResult
  torque_voltage : ReadResult
  stop_hw_ok : Bool
deriving DecidableEq, Repr

/-! ## `stop_measurement`, `measure`, `deactivate_hardware` (main.py) -/

/-- `MainWindow.stop_measurement` (main.py lines 2486–2517).  Returns
early when no measurement is running (warning only).  Otherwise: stop
the measurement timer (if present), issue one `stop_movement` to the
motor (if present and connected) — a failed stop is merely logged as an
error — then set `is_process_running := False`.  LED / GUI updates and
the start-timestamp reset are not modelled. -/
def stop_measurement (s : SysState) (hw_ok : Bool) : SysState × List HWEvent :=
  if s.is_process_running = false then (s, [HWEvent.warnLog])
  else
    let timer_step : SysState × List HWEvent :=
      if s.timer_present then ({ s with timer_active := false }, [HWEvent.timerStop])
      else (s, [])
    let s₁ := timer_step.1
    let motor_step : SysState × List HWEvent :=
      if s₁.motor_present = true ∧ s₁.motor.is_connected = true then
        let r := stop_movement s₁.motor hw_ok
        ({ s₁ with motor := r.1 },
         HWEvent.motorStop :: (if r.2 then [] else [HWEvent.errorLog]))
      else (s₁, [])
    let s₂ := motor_step.1
    ({ s₂ with is_process_running := false }, timer_step.2 ++ motor_step.2)

/-- The angle-acquisition block of `MainWindow.measure` (main.py lines
2996–3010), parametrised by the module constant
`ANGLE_MEASUREMENT_SOURCE` (read through `src`).  In `"daq"` mode a
successful read is scaled to [0,360] and unwrapped; a raised read is
caught: a warning is logged and the angle is substituted by `0.0`
without touching the unwrap state.  In the legacy mode the motor
position is used when the controller is present and connected. -/
def measure_angle (src : String) (s : SysState) (r : ReadResult) :
    ℚ × UnwrapState × List HWEvent :=
  if src = "daq" then
    match r with
    | ReadResult.ok v =>
      let angle_0_360 := scale_voltage_to_angle s.daq_task v
      let u := unwrap_angle ANGLE_ENCODER_MODE s.unwrap angle_0_360
      (u.1, u.2, [HWEvent.readAngle])
    | ReadResult.err => (0, s.unwrap, [HWEvent.readAngle, HWEvent.warnLog])
  else
    if s.motor_present = true ∧ s.motor.is_connected = true then
      (s.motor.current_position, s.unwrap, [])
    else (0, s.unwrap, [])

/-- The torque-voltage block of `MainWindow.measure` (main.py lines
3012–3018): the read is attempted only when the DAQ task exists and is
created; a raised read is caught, logged as a warning, and the voltage
keeps its initialisation `0.0`. -/
def measure_torque_voltage (s : SysState) (r : ReadResult) : ℚ × List HWEvent :=
  if s.daq_present = true ∧ s.daq_task_created = true then
    match r with
    | ReadResult.ok v => (v, [HWEvent.readTorque])
    | ReadResult.err => (0, [HWEvent.readTorque, HWEvent.warnLog])
  else (0, [])

/-- The continuous angle computed by a tick of `measure` on state `s`
with tick input `inp`. -/
def tick_angle (s : SysState) (inp : TickInput) : ℚ :=
  (measure_angle ANGLE_MEASUREMENT_SOURCE s inp.angle_voltage).1

/-- The torque value computed by a tick of `measure` on state `s` with
tick input `inp` (`torque = voltage * TORQUE_SCALE`, main.py line 3021). -/
def tick_torque (s : SysState) (inp : TickInput) : ℚ :=
  (measure_torque_voltage s inp.torque_voltage).1 * TORQUE_SCALE

/-- `MainWindow.measure` (main.py lines 2978–3052), one tick of the
sampling loop.  A tick on a non-running state returns immediately.
Otherwise, in program order: read and unwrap the angle (lines
2996–3010), read the torque voltage (lines 3012–3018), compute the
torque, append the sample row to the data file (line 3031), and
evaluate the stop conditions `abs(angle) >= abs(max_angle)` /
`abs(torque) >= abs(max_torque)` (lines 3036–3052), invoking
`stop_measurement` in the same tick when one holds.  Graph and GUI
updates are not modelled. -/
def measure (s : SysState) (inp : TickInput) : SysState × List HWEvent :=
  if s.is_process_running = false then (s, [])
  else
    let ang := measure_angle ANGLE_MEASUREMENT_SOURCE s inp.angle_voltage
    let angle := ang.1
    let tor := measure_torque_voltage s inp.torque_voltage
    let voltage := tor.1
    let torque := voltage * TORQUE_SCALE
    let s₁ := { s with
                unwrap := ang.2.1
                samples := s.samples ++ [⟨voltage, torque, angle⟩] }
    if py_abs angle ≥ py_abs s.max_angle_value ∨ py_abs torque ≥ py_abs s.max_torque_value then
      let r := stop_measurement s₁ inp.stop_hw_ok
      (r.1, ang.2.2 ++ tor.2 ++ [HWEvent.writeData] ++ r.2)
    else
      (s₁, ang.2.2 ++ tor.2 ++ [HWEvent.writeData])

/-- A sequence of timer ticks: `measure` applied over a list of tick
inputs, with the traces concatenated in order. -/
def run_ticks (s : SysState) : List TickInput → SysState × List HWEvent
  | [] => (s, [])
  | i :: rest =>
    let r := measure s i
    let t := run_ticks r.1 rest
    (t.1, r.2 ++ t.2)

/-- `MainWindow.deactivate_hardware` (main.py lines 2009–2068).  Returns
early when the hardware is not initialised.  Otherwise, in program
order: close the DAQ task and drop the reference (lines 2023–2031),
disconnect the motor controller and drop the reference (lines
2036–2045), and only then clear `are_instruments_initialized` and
`is_process_running` (lines 2050–2051).  No stop command is sent to the
motor and the measurement timer is not stopped.  Cursor, LED and GUI
updates are not modelled. -/
def deactivate_hardware (s : SysState) : SysState × List HWEvent :=
  if s.hardware_ready = false then (s, [HWEvent.warnLog])
  else
    let daq_step : SysState × List HWEvent :=
      if s.daq_present then
        ({ s with daq_present := false, daq_task_created := false }, [HWEvent.daqClose])
      else (s, [])
    let s₁ := daq_step.1
    let motor_step : SysState × List HWEvent :=
      if s₁.motor_present then
        ({ s₁ with motor_present := false, motor := motor_disconnect s₁.motor },
         [HWEvent.motorDisc])
      else (s₁, [])
    let s₂ := motor_step.1
    ({ s₂ with hardware_ready := false, is_process_running := false },
     daq_step.2 ++ motor_step.2)

/-! ## Helper lemmas -/

/-- The configured encoder mode is not `"multi_turn"`. -/
theorem encoder_mode_ne_multi : (ANGLE_ENCODER_MODE = "multi_turn") = False := by decide

/-- The configured angle source is `"daq"`. -/
theorem angle_source_daq : (ANGLE_MEASUREMENT_SOURCE = "daq") = True := by decide

/-- `py_abs` agrees with the absolute value on ℚ. -/
theorem py_abs_eq_abs (q : ℚ) : py_abs q = |q| := by
  unfold py_abs
  rcases lt_or_le q 0 with h | h
  · rw [if_pos h, abs_of_neg h]
  · rw [if_neg (not_lt.mpr h), abs_of_nonneg h]

/-- A tick on a state that is not running is a no-op with an empty trace
(main.py lines 2981–2982). -/
theorem measure_not_running (s : SysState) (inp : TickInput)
    (h : s.is_process_running = false) : measure s inp = (s, []) := by
  unfold measure
  rw [if_pos h]

/-- Any sequence of ticks from a non-running state is a no-op with an
empty trace. -/
theorem run_ticks_not_running (s : SysState) (inps : List TickInput)
    (h : s.is_process_running = false) : run_ticks s inps = (s, []) := by
  induction inps with
  | nil => rfl
  | cons i rest ih =>
    unfold run_ticks
    rw [measure_not_running s i h]
    simp [ih]

/-! ## Claims about the AngleUnwrapper -/

/-- **C2.** After every call to `unwrap_angle` (any input raw angle, any
prior state) and after `reset_angle_unwrap`, the unwrap state satisfies
`angle_continuous_deg = prev_angle_deg + 360·turn_counter`. -/
theorem unwrap_state_invariant (s : UnwrapState) (a : ℚ) :
    ((unwrap_angle ANGLE_ENCODER_MODE s a).2.angle_continuous_deg
      = (unwrap_angle ANGLE_ENCODER_MODE s a).2.prev_angle_deg
        + 360 * ((unwrap_angle ANGLE_ENCODER_MODE s a).2.turn_counter : ℚ))
    ∧ (reset_angle_unwrap.angle_continuous_deg
      = reset_angle_unwrap.prev_angle_deg + 360 * (reset_angle_unwrap.turn_counter : ℚ)) := by
  constructor
  · simp [unwrap_angle, encoder_mode_ne_multi]
  · norm_num [reset_angle_unwrap]

/-- **C10.** With the encoder-mode constant equal to `"multi_turn"`,
`unwrap_angle` returns its input unchanged and leaves every field of the
unwrap state exactly as it was. -/
theorem multi_turn_unwrap_id (s : UnwrapState) (a : ℚ) :
    unwrap_angle "multi_turn" s a = (a, s) := rfl

/-- **C4, counterexample.** From the reset initial unwrap state, the
raw-angle sequence `[350, 358, 5, 12]` does *not* produce
`[350, 358, 365, 372]`: the first sample 350 makes `delta = 350 > 180`,
a (spurious) backward wrap, so the actual output is `[-10, -2, 5, 12]`. -/
theorem wrap_round_trip_from_reset_cex :
    (unwrap_run ANGLE_ENCODER_MODE reset_angle_unwrap [350, 358, 5, 12]).1 ≠ [350, 358, 365, 372]
    ∧ (unwrap_run ANGLE_ENCODER_MODE reset_angle_unwrap [350, 358, 5, 12]).1 = [-10, -2, 5, 12] := by
  constructor
  · norm_num [unwrap_run, unwrap_angle, reset_angle_unwrap, encoder_mode_ne_multi]
  · norm_num [unwrap_run, unwrap_angle, reset_angle_unwrap, encoder_mode_ne_multi]

/-- **C4, amended.** Starting from an unwrap state whose
`prev_angle_deg` is 350 (the first sample) with `turn_counter = 0` —
rather than from the reset state, where the first sample 350 triggers a
spurious backward wrap — feeding `[350, 358, 5, 12]` yields the
continuous angles `[350, 358, 365, 372]`, with exactly one forward wrap,
detected between 358 and 5 (`turn_counter` is 0 after the first two
samples and 1 from the third sample on). -/
theorem wrap_round_trip_from_350 :
    (unwrap_run ANGLE_ENCODER_MODE ⟨350, 0, 350⟩ [350, 358, 5, 12]).1 = [350, 358, 365, 372]
    ∧ (unwrap_run ANGLE_ENCODER_MODE ⟨350, 0, 350⟩ [350, 358]).2.turn_counter = 0
    ∧ (unwrap_run ANGLE_ENCODER_MODE ⟨350, 0, 350⟩ [350, 358, 5]).2.turn_counter = 1
    ∧ (unwrap_run ANGLE_ENCODER_MODE ⟨350, 0, 350⟩ [350, 358, 5, 12]).2.turn_counter = 1 := by
  refine ⟨?_, ?_, ?_, ?_⟩ <;>
    norm_num [unwrap_run, unwrap_angle, encoder_mode_ne_multi]

/-- **C5, counterexample.** `reset_angle_unwrap` followed by
`unwrap_angle 350` does not return 350: the delta from the reset
`prev_angle_deg = 0` is 350 > 180, so a backward wrap is (wrongly)
detected and the continuous angle is −10 with `turn_counter = −1`. -/
theorem reset_then_unwrap_cex :
    (unwrap_angle ANGLE_ENCODER_MODE reset_angle_unwrap 350).1 ≠ 350
    ∧ (unwrap_angle ANGLE_ENCODER_MODE reset_angle_unwrap 350).1 = -10
    ∧ (unwrap_angle ANGLE_ENCODER_MODE reset_angle_unwrap 350).2.turn_counter = -1 := by
  refine ⟨?_, ?_, ?_⟩ <;>
    norm_num [unwrap_angle, reset_angle_unwrap, encoder_mode_ne_multi]

/-- **C5, amended.** For a raw angle `r ∈ [0, 360)`, reset followed by
`unwrap_angle r` returns `r` with `turn_counter = 0` *only when
`r ≤ ANGLE_WRAP_THRESHOLD` (180°)*; for `r > 180` the first delta from
the reset state exceeds the threshold, a backward wrap is detected, and
the result is `r − 360` with `turn_counter = −1`. -/
theorem reset_then_unwrap_characterisation (r : ℚ) (h0 : 0 ≤ r) (h1 : r < 360) :
    ((unwrap_angle ANGLE_ENCODER_MODE reset_angle_unwrap r).1
      = if r ≤ ANGLE_WRAP_THRESHOLD then r else r - 360)
    ∧ ((unwrap_angle ANGLE_ENCODER_MODE reset_angle_unwrap r).2.turn_counter
      = if r ≤ ANGLE_WRAP_THRESHOLD then 0 else -1) := by
  simp only [unwrap_angle, reset_angle_unwrap, encoder_mode_ne_multi, if_false,
    ANGLE_WRAP_THRESHOLD, gt_iff_lt, sub_zero]
  split_ifs <;> constructor <;>
    first
    | (exfalso ; linarith)
    | ring

/-- Witness for `reset_then_unwrap_characterisation` at `r = 350`. -/
theorem reset_then_unwrap_characterisation_witness :
    (0 : ℚ) ≤ 350 ∧ (350 : ℚ) < 360
    ∧ (((unwrap_angle ANGLE_ENCODER_MODE reset_angle_unwrap 350).1
        = if (350 : ℚ) ≤ ANGLE_WRAP_THRESHOLD then 350 else 350 - 360)
      ∧ ((unwrap_angle ANGLE_ENCODER_MODE reset_angle_unwrap 350).2.turn_counter
        = if (350 : ℚ) ≤ ANGLE_WRAP_THRESHOLD then 0 else -1)) :=
  ⟨by norm_num, by norm_num,
   reset_then_unwrap_characterisation 350 (by norm_num) (by norm_num)⟩

/-! ## Claims about the DAQ scaling -/

/-- **C9, counterexample.** With the configured 0–10 V → 0–360° mapping,
`scale_voltage_to_angle` at 10 V returns exactly 360, which is *not*
strictly less than 360: the clamp is to the closed interval [0, 360]. -/
theorem scale_voltage_boundary_cex :
    scale_voltage_to_angle default_daq_task 10 = 360
    ∧ ¬ scale_voltage_to_angle default_daq_task 10 < 360 := by
  constructor <;>
    norm_num [scale_voltage_to_angle, default_daq_task, py_max, py_min]

/-- **C9, amended.** With the configured mapping
(`voltage_min→angle_min = 0→0°`, `voltage_max→angle_max = 10→360°`),
`scale_voltage_to_angle` returns, for every voltage, a raw angle in the
*closed* interval [0°, 360°]: at least 0 and at most (not strictly less
than) 360; the value 360 is attained at `voltage_max`. -/
theorem scale_voltage_clamped_range (v : ℚ) :
    ANGLE_MIN_DEG ≤ scale_voltage_to_angle default_daq_task v
    ∧ scale_voltage_to_angle default_daq_task v ≤ ANGLE_MAX_DEG := by
  unfold scale_voltage_to_angle default_daq_task py_max py_min
  norm_num
  split_ifs <;> constructor <;> first | rfl | linarith

/-! ## Concrete example states used by witnesses and counterexamples -/

/-- A connected, moving demo motor. -/
def demo_motor : MotorControllerState :=
  { is_connected := true, is_moving := true, velocity := 10, current_position := 0 }

/-- A system state in the middle of a run: hardware active, timer
firing, motor moving, default run parameters
(`max_angle = 360`, `max_torque = 15`). -/
def running_state : SysState :=
  { is_process_running := true
    timer_present := true
    timer_active := true
    hardware_ready := true
    daq_present := true
    daq_task_created := true
    daq_task := default_daq_task
    motor_present := true
    motor := demo_motor
    unwrap := reset_angle_unwrap
    max_angle_value := 360
    max_torque_value := 15
    samples := [] }

/-- A tick input whose torque read (10 V → 20 Nm) exceeds the 15 Nm
torque limit of `running_state`. -/
def limit_inp : TickInput :=
  { angle_voltage := ReadResult.ok 2, torque_voltage := ReadResult.ok 10, stop_hw_ok := true }

/-- A benign tick input: both reads succeed, far from the limits. -/
def benign_inp : TickInput :=
  { angle_voltage := ReadResult.ok 2, torque_voltage := ReadResult.ok 1, stop_hw_ok := true }

/-- A tick input on which both sensor reads raise. -/
def fault_inp : TickInput :=
  { angle_voltage := ReadResult.err, torque_voltage := ReadResult.err, stop_hw_ok := true }

/-! ## Trace shape lemmas -/

/-- The angle block emits at most a read and a warning. -/
theorem measure_angle_events (src : String) (s : SysState) (r : ReadResult) :
    (measure_angle src s r).2.2 = []
    ∨ (measure_angle src s r).2.2 = [HWEvent.readAngle]
    ∨ (measure_angle src s r).2.2 = [HWEvent.readAngle, HWEvent.warnLog] := by
  unfold measure_angle
  rcases r with v | _ <;> split_ifs <;> simp

/-- The torque block emits at most a read and a warning. -/
theorem measure_torque_events (s : SysState) (r : ReadResult) :
    (measure_torque_voltage s r).2 = []
    ∨ (measure_torque_voltage s r).2 = [HWEvent.readTorque]
    ∨ (measure_torque_voltage s r).2 = [HWEvent.readTorque, HWEvent.warnLog] := by
  unfold measure_torque_voltage
  rcases r with v | _ <;> split_ifs <;> simp

/-! ## Claims about the sampling loop -/

/-- **C3, counterexample.** In a running tick with both reads
succeeding, `measure` does *not* read the torque voltage first: in the
emitted trace the angle read (index 0) precedes the torque read
(index 1), refuting the claimed torque-first ordering. -/
theorem tick_read_order_cex :
    HWEvent.readTorque ∈ (measure running_state benign_inp).2
    ∧ HWEvent.readAngle ∈ (measure running_state benign_inp).2
    ∧ ¬ firstIdx HWEvent.readTorque (measure running_state benign_inp).2
        < firstIdx HWEvent.readAngle (measure running_state benign_inp).2 := by
  refine ⟨?_, ?_, ?_⟩ <;>
    norm_num [measure, measure_angle, measure_torque_voltage, running_state, benign_inp,
      default_daq_task, demo_motor, reset_angle_unwrap, unwrap_angle, scale_voltage_to_angle,
      stop_measurement, stop_movement, encoder_mode_ne_multi, py_abs, py_min, py_max, firstIdx]

/-- **C3, amended.** In *every* running tick of `measure`, the angle
sensor voltage is read and unwrapped first — the angle read is the very
first hardware event of the tick's trace — and the torque sensor
voltage is read second, strictly after the angle read; the torque read
itself is attempted (and hence appears in the trace) whenever the DAQ
task exists and is created.  The claimed torque-first order never
occurs. -/
theorem tick_reads_angle_before_torque (s : SysState) (inp : TickInput)
    (hrun : s.is_process_running = true) :
    HWEvent.readAngle ∈ (measure s inp).2
    ∧ firstIdx HWEvent.readAngle (measure s inp).2 = 0
    ∧ firstIdx HWEvent.readAngle (measure s inp).2
        < firstIdx HWEvent.readTorque (measure s inp).2
    ∧ (s.daq_present = true → s.daq_task_created = true →
        HWEvent.readTorque ∈ (measure s inp).2) := by
  have hnotfalse : ¬ (s.is_process_running = false) := by simp [hrun]
  rcases inp with ⟨av, tv, ok⟩
  refine ⟨?_, ?_, ?_, fun hdaq htask => ?_⟩ <;>
    rcases av with v | _ <;> rcases tv with w | _ <;>
    · simp only [measure, measure_angle, measure_torque_voltage, angle_source_daq, if_true]
      rw [if_neg hnotfalse]
      split <;> split <;> simp_all [firstIdx]

/-- Witness for `tick_reads_angle_before_torque` at `running_state`
with `benign_inp`. -/
theorem tick_reads_angle_before_torque_witness :
    running_state.is_process_running = true
    ∧ (HWEvent.readAngle ∈ (measure running_state benign_inp).2
      ∧ firstIdx HWEvent.readAngle (measure running_state benign_inp).2 = 0
      ∧ firstIdx HWEvent.readAngle (measure running_state benign_inp).2
          < firstIdx HWEvent.readTorque (measure running_state benign_inp).2
      ∧ (running_state.daq_present = true → running_state.daq_task_created = true →
          HWEvent.readTorque ∈ (measure running_state benign_inp).2)) :=
  ⟨rfl, tick_reads_angle_before_torque running_state benign_inp rfl⟩

/-- A tick input with a raised angle read and a healthy torque read of
10 V (→ 20 Nm, beyond the 15 Nm limit of `running_state`). -/
def angle_fault_inp : TickInput :=
  { angle_voltage := ReadResult.err, torque_voltage := ReadResult.ok 10, stop_hw_ok := true }

/-- `stop_measurement` never touches the unwrap state. -/
theorem stop_measurement_unwrap (s : SysState) (hw_ok : Bool) :
    (stop_measurement s hw_ok).1.unwrap = s.unwrap := by
  simp only [stop_measurement, stop_movement]
  split_ifs <;> simp

/-- A running tick whose computed values stay below both limits ends
with the run still running, the motor and timer untouched, and no stop
command in its trace (main.py lines 3036–3052: `stop_measurement` is
called only when a stop condition holds). -/
theorem measure_below_limits (s : SysState) (inp : TickInput)
    (hrun : s.is_process_running = true)
    (hnostop : ¬ (py_abs (tick_angle s inp) ≥ py_abs s.max_angle_value
          ∨ py_abs (tick_torque s inp) ≥ py_abs s.max_torque_value)) :
    (measure s inp).1.is_process_running = true
    ∧ (measure s inp).1.motor = s.motor
    ∧ (measure s inp).1.timer_active = s.timer_active
    ∧ HWEvent.motorStop ∉ (measure s inp).2
    ∧ HWEvent.timerStop ∉ (measure s inp).2 := by
  simp only [tick_angle, tick_torque] at hnostop
  rcases measure_angle_events ANGLE_MEASUREMENT_SOURCE s inp.angle_voltage with hE | hE | hE <;>
    rcases measure_torque_events s inp.torque_voltage with hF | hF | hF <;>
    · simp only [measure]
      rw [if_neg (by simp [hrun]), if_neg hnostop]
      simp [hE, hF, hrun]

/-- **C8, counterexample.** A running tick in which the *angle* read
raises — the claim's premise, with the fault duly substituted by 0.0
and logged as a warning — but whose healthy torque read returns 10 V
(20 Nm ≥ the 15 Nm limit) *does* stop the run and the motor within that
same tick, refuting "never stops the motor, and never changes the
running state within that tick". -/
theorem sensor_fault_tick_stops_cex :
    running_state.is_process_running = true
    ∧ angle_fault_inp.angle_voltage = ReadResult.err
    ∧ HWEvent.warnLog ∈ (measure running_state angle_fault_inp).2
    ∧ (measure running_state angle_fault_inp).1.is_process_running = false
    ∧ HWEvent.motorStop ∈ (measure running_state angle_fault_inp).2 := by
  refine ⟨rfl, rfl, ?_, ?_, ?_⟩ <;>
    norm_num [measure, measure_angle, measure_torque_voltage, running_state, angle_fault_inp,
      demo_motor, stop_measurement, stop_movement, py_abs]

/-- **C8, amended.** If reading the torque voltage or the angle voltage
raises an error during a running tick (with the DAQ task present, so
the torque read is attempted), the tick substitutes 0.0 for the failed
reading (leaving the unwrap state untouched on an angle fault), records
a warning, and completes the tick rather than aborting; the fault never
stops the run *by itself*: the running state changes within that tick
only through the normal stop-condition evaluation, so whenever the
computed values (with the substituted zeros) stay below both limits the
run is still running and the motor and timer are untouched — but a
healthy other-channel reading at or beyond its limit still stops the
run in that same tick. -/
theorem sensor_fault_absorbed (s : SysState) (inp : TickInput)
    (hrun : s.is_process_running = true)
    (hdaq : s.daq_present = true)
    (htask : s.daq_task_created = true)
    (hfault : inp.angle_voltage = ReadResult.err ∨ inp.torque_voltage = ReadResult.err) :
    HWEvent.warnLog ∈ (measure s inp).2
    ∧ (inp.angle_voltage = ReadResult.err →
        tick_angle s inp = 0 ∧ (measure s inp).1.unwrap = s.unwrap)
    ∧ (inp.torque_voltage = ReadResult.err → tick_torque s inp = 0)
    ∧ (¬ (py_abs (tick_angle s inp) ≥ py_abs s.max_angle_value
          ∨ py_abs (tick_torque s inp) ≥ py_abs s.max_torque_value) →
        (measure s inp).1.is_process_running = true
        ∧ (measure s inp).1.motor = s.motor
        ∧ (measure s inp).1.timer_active = s.timer_active
        ∧ HWEvent.motorStop ∉ (measure s inp).2
        ∧ HWEvent.timerStop ∉ (measure s inp).2) := by
  have hnotfalse : ¬ (s.is_process_running = false) := by simp [hrun]
  refine ⟨?_, fun ha => ⟨?_, ?_⟩, fun hv => ?_,
    fun hnostop => measure_below_limits s inp hrun hnostop⟩
  · rcases hfault with ha | hv
    · simp only [measure]
      rw [if_neg hnotfalse]
      split <;> simp [measure_angle, angle_source_daq, ha]
    · simp only [measure]
      rw [if_neg hnotfalse]
      split <;> simp [measure_torque_voltage, hv, hdaq, htask]
  · simp [tick_angle, measure_angle, angle_source_daq, ha]
  · simp only [measure]
    rw [if_neg hnotfalse]
    split <;> simp [stop_measurement_unwrap, measure_angle, angle_source_daq, ha]
  · simp [tick_torque, measure_torque_voltage, hv, hdaq, htask]

/-- Witness for `sensor_fault_absorbed` at `running_state` with
`fault_inp` (both reads raise). -/
theorem sensor_fault_absorbed_witness :
    running_state.is_process_running = true
    ∧ running_state.daq_present = true
    ∧ running_state.daq_task_created = true
    ∧ (fault_inp.angle_voltage = ReadResult.err ∨ fault_inp.torque_voltage = ReadResult.err)
    ∧ (HWEvent.warnLog ∈ (measure running_state fault_inp).2
      ∧ (fault_inp.angle_voltage = ReadResult.err →
          tick_angle running_state fault_inp = 0
          ∧ (measure running_state fault_inp).1.unwrap = running_state.unwrap)
      ∧ (fault_inp.torque_voltage = ReadResult.err →
          tick_torque running_state fault_inp = 0)
      ∧ (¬ (py_abs (tick_angle running_state fault_inp)
              ≥ py_abs running_state.max_angle_value
            ∨ py_abs (tick_torque running_state fault_inp)
              ≥ py_abs running_state.max_torque_value) →
          (measure running_state fault_inp).1.is_process_running = true
          ∧ (measure running_state fault_inp).1.motor = running_state.motor
          ∧ (measure running_state fault_inp).1.timer_active = running_state.timer_active
          ∧ HWEvent.motorStop ∉ (measure running_state fault_inp).2
          ∧ HWEvent.timerStop ∉ (measure running_state fault_inp).2)) :=
  ⟨rfl, rfl, rfl, Or.inl rfl,
   sensor_fault_absorbed running_state fault_inp rfl rfl rfl (Or.inl rfl)⟩

/-- **C1.** In every tick executed while a measurement is running (with
the timer and a connected motor in place, and nonnegative configured
limits), if the computed torque reaches the configured `max_torque` in
absolute value, or the computed continuous angle reaches the configured
`max_angle` in absolute value, then `stop_measurement` takes effect
before the tick returns: the resulting state is no longer running, the
measurement timer is stopped, the motor is commanded to stop (a
`motorStop` command appears in this tick's trace and `is_moving` is
cleared) — and no `move_continuous` command is ever issued after that
tick: this tick's trace contains no `motorMove`, and every subsequent
sequence of ticks from the resulting state has an empty trace. -/
theorem stop_run_on_limit_same_tick (s : SysState) (inp : TickInput) (inps : List TickInput)
    (hrun : s.is_process_running = true)
    (htimer : s.timer_present = true)
    (hmp : s.motor_present = true)
    (hmc : s.motor.is_connected = true)
    (hmaxa : 0 ≤ s.max_angle_value)
    (hmaxt : 0 ≤ s.max_torque_value)
    (hlim : s.max_torque_value ≤ py_abs (tick_torque s inp)
            ∨ s.max_angle_value ≤ py_abs (tick_angle s inp)) :
    (measure s inp).1.is_process_running = false
    ∧ (measure s inp).1.timer_active = false
    ∧ (measure s inp).1.motor.is_moving = false
    ∧ HWEvent.motorStop ∈ (measure s inp).2
    ∧ HWEvent.motorMove ∉ (measure s inp).2
    ∧ run_ticks (measure s inp).1 inps = ((measure s inp).1, []) := by
  have hcond : py_abs (tick_angle s inp) ≥ py_abs s.max_angle_value
      ∨ py_abs (tick_torque s inp) ≥ py_abs s.max_torque_value := by
    rcases hlim with h | h
    · right
      rw [py_abs_eq_abs s.max_torque_value, abs_of_nonneg hmaxt]
      exact h
    · left
      rw [py_abs_eq_abs s.max_angle_value, abs_of_nonneg hmaxa]
      exact h
  simp only [tick_angle, tick_torque] at hcond
  have hnotfalse : ¬ (s.is_process_running = false) := by simp [hrun]
  have hmain :
      (measure s inp).1.is_process_running = false
      ∧ (measure s inp).1.timer_active = false
      ∧ (measure s inp).1.motor.is_moving = false
      ∧ HWEvent.motorStop ∈ (measure s inp).2
      ∧ HWEvent.motorMove ∉ (measure s inp).2 := by
    rcases measure_angle_events ANGLE_MEASUREMENT_SOURCE s inp.angle_voltage with hE | hE | hE <;>
      rcases measure_torque_events s inp.torque_voltage with hF | hF | hF <;>
      · simp only [measure]
        rw [if_neg hnotfalse, if_pos hcond]
        simp [stop_measurement, stop_movement, hE, hF, hrun, htimer, hmp, hmc]
  refine ⟨hmain.1, hmain.2.1, hmain.2.2.1, hmain.2.2.2.1, hmain.2.2.2.2, ?_⟩
  exact run_ticks_not_running _ inps hmain.1

/-- Witness for `stop_run_on_limit_same_tick` at `running_state` with
`limit_inp` (10 V torque read → 20 Nm ≥ 15 Nm limit). -/
theorem stop_run_on_limit_same_tick_witness :
    running_state.is_process_running = true
    ∧ running_state.timer_present = true
    ∧ running_state.motor_present = true
    ∧ running_state.motor.is_connected = true
    ∧ (0 : ℚ) ≤ running_state.max_angle_value
    ∧ (0 : ℚ) ≤ running_state.max_torque_value
    ∧ running_state.max_torque_value ≤ py_abs (tick_torque running_state limit_inp)
    ∧ ((measure running_state limit_inp).1.is_process_running = false
      ∧ (measure running_state limit_inp).1.timer_active = false
      ∧ (measure running_state limit_inp).1.motor.is_moving = false
      ∧ HWEvent.motorStop ∈ (measure running_state limit_inp).2
      ∧ HWEvent.motorMove ∉ (measure running_state limit_inp).2
      ∧ run_ticks (measure running_state limit_inp).1 [limit_inp]
          = ((measure running_state limit_inp).1, [])) :=
  ⟨rfl, rfl, rfl, rfl, by norm_num [running_state], by norm_num [running_state],
   by norm_num [running_state, limit_inp, tick_torque, measure_torque_voltage, py_abs],
   stop_run_on_limit_same_tick running_state limit_inp [limit_inp] rfl rfl rfl rfl
     (by norm_num [running_state]) (by norm_num [running_state])
     (Or.inl (by norm_num [running_state, limit_inp, tick_torque, measure_torque_voltage, py_abs]))⟩

/-- **C6, counterexample.** `stop_measurement` on a running state whose
motor stop command fails (`hw_ok = false`) neither retries nor
escalates: it performs exactly one stop attempt, logs an error, leaves
the hardware flags untouched (no forced `Idle`), produces *the same
resulting state* as a successful stop, and still marks the run stopped
(`is_process_running = false`). -/
theorem stop_failure_ignored_cex :
    (stop_measurement running_state false).1.is_process_running = false
    ∧ (stop_measurement running_state false).1 = (stop_measurement running_state true).1
    ∧ countEv HWEvent.motorStop (stop_measurement running_state false).2 = 1
    ∧ HWEvent.errorLog ∈ (stop_measurement running_state false).2
    ∧ (stop_measurement running_state false).1.hardware_ready = true := by
  refine ⟨?_, ?_, ?_, ?_, ?_⟩ <;>
    norm_num [stop_measurement, stop_movement, running_state, demo_motor, countEv] <;>
    decide

/-- **C6, amended.** When the motor stop command fails during
`stop_measurement` (on a running state with timer and connected motor),
the failure is only logged: exactly one stop attempt is made, an error
log entry is emitted, the resulting state is identical to the
successful-stop state — in particular the run is marked stopped
(`is_process_running = false`) even though the physical stop command
failed — and the hardware-active flag is unchanged (no escalation to
`Idle`). -/
theorem stop_failure_only_logged (s : SysState)
    (hrun : s.is_process_running = true)
    (htimer : s.timer_present = true)
    (hmp : s.motor_present = true)
    (hmc : s.motor.is_connected = true) :
    (stop_measurement s false).1 = (stop_measurement s true).1
    ∧ (stop_measurement s false).1.is_process_running = false
    ∧ countEv HWEvent.motorStop (stop_measurement s false).2 = 1
    ∧ HWEvent.errorLog ∈ (stop_measurement s false).2
    ∧ (stop_measurement s false).1.hardware_ready = s.hardware_ready := by
  refine ⟨?_, ?_, ?_, ?_, ?_⟩ <;>
    simp [stop_measurement, stop_movement, hrun, htimer, hmp, hmc, countEv]

/-- Witness for `stop_failure_only_logged` at `running_state`. -/
theorem stop_failure_only_logged_witness :
    running_state.is_process_running = true
    ∧ running_state.timer_present = true
    ∧ running_state.motor_present = true
    ∧ running_state.motor.is_connected = true
    ∧ ((stop_measurement running_state false).1 = (stop_measurement running_state true).1
      ∧ (stop_measurement running_state false).1.is_process_running = false
      ∧ countEv HWEvent.motorStop (stop_measurement running_state false).2 = 1
      ∧ HWEvent.errorLog ∈ (stop_measurement running_state false).2
      ∧ (stop_measurement running_state false).1.hardware_ready
          = running_state.hardware_ready) :=
  ⟨rfl, rfl, rfl, rfl, stop_failure_only_logged running_state rfl rfl rfl rfl⟩

/-- **C7, counterexample.** Calling `deactivate_hardware` on a state
that is `Running` does *not* perform an implicit `stop_measurement`
first: its trace is exactly "close DAQ, disconnect motor" — it contains
no motor stop command and no timer stop — and the measurement timer is
still active afterwards, while the motor still believes it is moving. -/
theorem deactivate_no_implicit_stop_cex :
    (deactivate_hardware running_state).2 = [HWEvent.daqClose, HWEvent.motorDisc]
    ∧ HWEvent.motorStop ∉ (deactivate_hardware running_state).2
    ∧ HWEvent.timerStop ∉ (deactivate_hardware running_state).2
    ∧ (deactivate_hardware running_state).1.timer_active = true
    ∧ (deactivate_hardware running_state).1.motor.is_moving = true := by
  refine ⟨?_, ?_, ?_, ?_, ?_⟩ <;>
    norm_num [deactivate_hardware, motor_disconnect, running_state, demo_motor] <;>
    decide

/-- **C7, amended.** `deactivate_hardware` on an initialised state (DAQ
and motor present) never calls `stop_measurement`: it closes the DAQ
task, then disconnects the motor controller *without* any explicit stop
command, and only afterwards clears `is_process_running` and the
hardware-active flag; the measurement timer keeps its state and the
motor's `is_moving` flag is untouched, so the DAQ task and motor are
disconnected without the claimed implicit stop-run having happened. -/
theorem deactivate_skips_stop_run (s : SysState)
    (hready : s.hardware_ready = true)
    (hdaq : s.daq_present = true)
    (hmp : s.motor_present = true) :
    (deactivate_hardware s).2 = [HWEvent.daqClose, HWEvent.motorDisc]
    ∧ HWEvent.motorStop ∉ (deactivate_hardware s).2
    ∧ HWEvent.timerStop ∉ (deactivate_hardware s).2
    ∧ (deactivate_hardware s).1.timer_active = s.timer_active
    ∧ (deactivate_hardware s).1.motor.is_moving = s.motor.is_moving
    ∧ (deactivate_hardware s).1.is_process_running = false
    ∧ (deactivate_hardware s).1.hardware_ready = false := by
  refine ⟨?_, ?_, ?_, ?_, ?_, ?_, ?_⟩ <;>
    simp [deactivate_hardware, motor_disconnect, hready, hdaq, hmp]

/-- Witness for `deactivate_skips_stop_run` at `running_state`. -/
theorem deactivate_skips_stop_run_witness :
    running_state.hardware_ready = true
    ∧ running_state.daq_present = true
    ∧ running_state.motor_present = true
    ∧ ((deactivate_hardware running_state).2 = [HWEvent.daqClose, HWEvent.motorDisc]
      ∧ HWEvent.motorStop ∉ (deactivate_hardware running_state).2
      ∧ HWEvent.timerStop ∉ (deactivate_hardware running_state).2
      ∧ (deactivate_hardware running_state).1.timer_active = running_state.timer_active
      ∧ (deactivate_hardware running_state).1.motor.is_moving
          = running_state.motor.is_moving
      ∧ (deactivate_hardware running_state).1.is_process_running = false
      ∧ (deactivate_hardware running_state).1.hardware_ready = false) :=
  ⟨rfl, rfl, rfl, deactivate_skips_stop_run running_state rfl rfl rfl⟩

end TorsionStand
